import Mathlib

/-!
Shallow embedding of the `cookiecutter-pypackage` template scripts:

* `{{cookiecutter.pypi_package_name}}/make_env.py` — the env-writer
  (`parse_kv`, `main`, `ensure_gitignore`);
* `{{cookiecutter.pypi_package_name}}/scripts/run_docker.py` — the stack
  runner (`r_ensure_gitignore_entry`, `r_prompt_new_env`, `r_ensure_env_file`,
  `r_run_command`, the docker install helpers, `r_run_docker_compose`,
  `r_main`);
* `{{cookiecutter.pypi_package_name}}/scripts/install_just.py` — the `just`
  installer (`_auto_install_*`, `_attempt_auto_install`, `install_just`).

Python strings are modelled as Lean `String`, the filesystem as an
association list from path strings to file contents, external process
execution as an oracle function from the argument vector to an outcome, and
`shutil.which` probes as a boolean oracle on tool names.  Paths appearing in
the claims are plain relative POSIX strings, for which `str(Path(p))` and
`Path(p).as_posix()` are the identity, so paths are carried verbatim.
-/

/-! ## Python string primitives -/

/-- Whitespace characters removed by Python `str.strip()` for ASCII input:
space, tab, newline, carriage return, vertical tab, form feed. -/
def pyIsSpace (c : Char) : Bool :=
  c = ' ' || c = '\t' || c = '\n' || c = '\r' ||
  c = Char.ofNat 11 || c = Char.ofNat 12

/-- Python `s.strip()`: drop leading and trailing whitespace. -/
def pyStrip (s : String) : String :=
  String.mk (((s.data.dropWhile pyIsSpace).reverse.dropWhile pyIsSpace).reverse)

/-- Python `s.lower()` for ASCII input. -/
def pyLower (s : String) : String := String.mk (s.data.map Char.toLower)

/-- Python `c in s` for a single character `c`. -/
def pyContains (s : String) (c : Char) : Bool := s.data.contains c

/-- Python `s.startswith(pre)`. -/
def pyStartsWith (s pre : String) : Bool := pre.data.isPrefixOf s.data

/-- Helper for `pySplitlines`: `cur` holds the characters of the current line
in reverse.  A line break (`\r\n`, `\n` or `\r`, the breaks relevant to the
files at hand) flushes the current line; at end of input a nonempty current
line is flushed, an empty one is not (matching Python `str.splitlines`,
which produces no trailing empty line). -/
def pySplitlinesAux (cur : List Char) : List Char → List (List Char)
  | [] => if cur = [] then [] else [cur.reverse]
  | '\r' :: '\n' :: rest => cur.reverse :: pySplitlinesAux [] rest
  | '\n' :: rest => cur.reverse :: pySplitlinesAux [] rest
  | '\r' :: rest => cur.reverse :: pySplitlinesAux [] rest
  | c :: rest => pySplitlinesAux (c :: cur) rest

/-- Python `s.splitlines()` restricted to `\n` / `\r\n` / `\r` breaks. -/
def pySplitlines (s : String) : List String :=
  (pySplitlinesAux [] s.data).map String.mk

/-- Python `s.split("=", 1)` for a string, returning the part before the
first `'='` and the part after it (the whole string and `""` when no `'='`
occurs). -/
def splitFirstEq (s : String) : String × String :=
  let pre := s.data.takeWhile (fun c => c ≠ '=')
  (String.mk pre, String.mk (s.data.drop (pre.length + 1)))

/-! ## Filesystem model -/

/-- A filesystem: association list from path to file content. -/
abbrev FS := List (String × String)

/-- Read a file: `some content` when the path exists. -/
def fsRead : FS → String → Option String
  | [], _ => none
  | (q, c) :: rest, p => if p = q then some c else fsRead rest p

/-- Overwrite or create a file. -/
def fsWrite : FS → String → String → FS
  | [], p, c => [(p, c)]
  | (q, d) :: rest, p, c =>
      if p = q then (p, c) :: rest else (q, d) :: fsWrite rest p c

/-- Python `Path.exists()`. -/
def fsExists (fs : FS) (p : String) : Bool := (fsRead fs p).isSome

/-! ## make_env.py -/

/-- Source `parse_kv` (make_env.py lines 10–17): for each pair string, raise
`ValueError(f"Invalid pair: {pair}")` when it has no `'='`, otherwise split
on the first `'='`; collect the `(k, v)` pairs in order. -/
def parse_kv : List String → Except String (List (String × String))
  | [] => .ok []
  | p :: rest =>
    if pyContains p '=' then
      match parse_kv rest with
      | .ok r => .ok (splitFirstEq p :: r)
      | .error e => .error e
    else .error ("Invalid pair: " ++ p)

/-- Content written by make_env.py lines 31–32:
`lines = [f"{k}={v}" for k, v in kvs]` followed by
`out.write_text("".join(lines) + "", ...)`.  The join separator is the empty
string (the intended `"\n".join(lines) + "\n"` survives only as a stray
argument in the dead trailing call on line 33), so entries are concatenated
with no newline between or after them. -/
def writeEnvContent (kvs : List (String × String)) : String :=
  String.join (kvs.map (fun kv => kv.1 ++ "=" ++ kv.2))

/-- Line-by-line parse of an env file, splitting each line on the first
`'='` (the round-trip reader described by the spec). -/
def parseEnvFile (content : String) : List (String × String) :=
  (pySplitlines content).map splitFirstEq

/-- Source `ensure_gitignore` (make_env.py lines 35–43) acting on the
filesystem: if `.gitignore` does not exist, return (no write); otherwise
split its content into lines, and if `str(out_path)` is not among them,
append it and write `"".join(content) + ""` — again an empty-string join. -/
def ensure_gitignore (fs : FS) (outPath : String) : FS :=
  match fsRead fs ".gitignore" with
  | none => fs
  | some content =>
    let lines := pySplitlines content
    if outPath ∈ lines then fs
    else fsWrite fs ".gitignore" (String.join (lines ++ [outPath]))

/-- Outcome of running a make_env.py entry point. -/
inductive PyOutcome where
  /-- Normal return (process exit status 0). -/
  | ok
  /-- Uncaught `TypeError` (process dies with a traceback, exit status 1). -/
  | typeError
  /-- Uncaught `ValueError` (process dies with a traceback, exit status 1). -/
  | valueError (msg : String)
  /-- `argparse` usage rejection (`SystemExit(2)` from `parse_args`). -/
  | usageExit
deriving DecidableEq, Repr

/-- Source `main` of make_env.py (lines 19–33).  Line 20 constructs the
`ArgumentParser`; line 21 reads
`parser.add_argument("--github-pat", ...)(description=...)`:
`add_argument` returns the created `argparse` action object, which is then
immediately called with an unexpected keyword argument `description`, so a
`TypeError` is raised while the parser is still being constructed.  Every
invocation of `main`, whatever `argv` holds, therefore dies before
`parse_args`, before `parse_kv`, and before any file is touched. -/
def makeEnvMain (argv : List String) (fs : FS) : PyOutcome × FS :=
  (.typeError, fs)

/-! ## run_docker.py -/

/-- Outcome of `subprocess.run(cmd)` for one argument vector: the executable
is absent from the search path (`FileNotFoundError`), or the process ran and
returned an exit code. -/
inductive ExecOutcome where
  | notFound
  | exit (code : Nat)
deriving DecidableEq, Repr

/-- An observable external effect of the runner: a `shutil.which` probe of a
tool name, or an invocation of an external command. -/
inductive REvent where
  | probe (tool : String)
  | cmd (c : List String)
deriving DecidableEq, Repr

/-- Source `r_run_command` (run_docker.py lines 76–85): run the command with
`check=True`; on `FileNotFoundError` call `sys.exit(1)`, on
`CalledProcessError` (nonzero exit code) call `sys.exit(exc.returncode)`,
otherwise return.  `Except.error c` models `sys.exit(c)`. -/
def r_run_command (oracle : List String → ExecOutcome) (cmd : List String) :
    Except Nat Unit :=
  match oracle cmd with
  | .notFound => .error 1
  | .exit c => if c = 0 then .ok () else .error c

/-- Source `r_ensure_gitignore_entry` (run_docker.py lines 21–30): if
`.gitignore` does not exist, return without writing; otherwise split its
content into lines, and if `path.as_posix()` is not among them, append it
and write `"".join(lines) + ""` — an empty-string join, so the appended
entry is glued onto the previous content without any newline. -/
def r_ensure_gitignore_entry (fs : FS) (path : String) : FS :=
  match fsRead fs ".gitignore" with
  | none => fs
  | some content =>
    let lines := pySplitlines content
    if path ∈ lines then fs
    else fsWrite fs ".gitignore" (String.join (lines ++ [path]))

/-- Result of `r_prompt_new_env`. -/
inductive POut where
  /-- User declined the confirmation: `sys.exit(1)` before anything is read
  or written. -/
  | aborted
  /-- The scripted input ran out inside the collection loop: `input()`
  raises `EOFError`, uncaught (process dies with exit status 1). -/
  | eof
  /-- The env file was written; `lines` is the collected entry list. -/
  | wrote (lines : List String)
deriving DecidableEq, Repr

/-- The free-form collection loop of `r_prompt_new_env` (run_docker.py
lines 53–60): read a line, strip it; a blank line breaks the loop; a line
without `'='` prints a retry message and continues; otherwise the stripped
line is appended.  The scripted input is a finite list; exhausting it
models `EOFError`. -/
def r_collect_extras : List String → Except Unit (List String)
  | [] => .error ()
  | raw :: rest =>
    let r := pyStrip raw
    if r = "" then .ok []
    else if pyContains r '=' then
      match r_collect_extras rest with
      | .ok more => .ok (r :: more)
      | .error e => .error e
    else r_collect_extras rest

/-- Source `r_prompt_new_env` (run_docker.py lines 33–66): confirm with the
user (strip + lowercase; anything other than `y`/`yes` aborts via
`sys.exit(1)`); read the PAT with `getpass` (stripped; blank means no
entry); collect extra `KEY=VALUE` lines; write
`"".join(lines) + "" if lines else ""` (an empty-string join) to the env
file and ensure the gitignore entry.  `answer` is the confirmation input,
`pat` the `getpass` input, `extras` the scripted loop input. -/
def r_prompt_new_env (answer pat : String) (extras : List String)
    (fs : FS) (envPath : String) : POut × FS :=
  let ans := pyLower (pyStrip answer)
  if ans = "y" || ans = "yes" then
    let patS := pyStrip pat
    let lines0 :=
      if patS = "" then ([] : List String)
      else ["GITHUB_PERSONAL_ACCESS_TOKEN=" ++ patS]
    match r_collect_extras extras with
    | .error _ => (.eof, fs)
    | .ok ex =>
      let lines := lines0 ++ ex
      let envText := if lines = [] then "" else String.join lines
      let fs1 := fsWrite fs envPath envText
      (.wrote lines, r_ensure_gitignore_entry fs1 envPath)
  else (.aborted, fs)

/-- Source `r_ensure_env_file` (run_docker.py lines 69–73): when the env
file exists, only ensure the gitignore entry; otherwise run the interactive
prompt.  `Except.error c` models the process exiting with status `c`
(`sys.exit(1)` on abort, status 1 for the uncaught `EOFError`). -/
def r_ensure_env_file (answer pat : String) (extras : List String)
    (fs : FS) (envPath : String) : Except Nat FS :=
  if fsExists fs envPath then .ok (r_ensure_gitignore_entry fs envPath)
  else
    match r_prompt_new_env answer pat extras fs envPath with
    | (.aborted, _) => .error 1
    | (.eof, _) => .error 1
    | (.wrote _, fs1) => .ok fs1

/-- Argument vector of the elevated Chocolatey install on Windows
(run_docker.py lines 95–104). -/
def psChocoCmd : List String :=
  ["powershell", "-Command", "Start-Process", "choco", "-ArgumentList",
   "'install docker-desktop -y'", "-Verb", "runAs"]

/-- Source `r_try_install_docker_windows` (run_docker.py lines 88–111):
return at once if `docker` resolves; exit 1 if `choco` is absent; otherwise
run the elevated install with `check=False` (outcome ignored) and exit 1,
telling the user to re-run. -/
def r_try_install_docker_windows (which : String → Bool)
    (oracle : List String → ExecOutcome) : Except Nat Unit × List REvent :=
  if which "docker" then (.ok (), [.probe "docker"])
  else if !which "choco" then (.error 1, [.probe "docker", .probe "choco"])
  else (.error 1, [.probe "docker", .probe "choco", .cmd psChocoCmd])

/-- The `sudo apt update` invocation of run_docker.py line 126. -/
def aptUpdateCmd : List String := ["sudo", "apt", "update"]

/-- The `sudo apt install` invocation of run_docker.py lines 127–134. -/
def aptInstallCmd : List String :=
  ["sudo", "apt", "install", "-y", "docker.io", "docker-compose-plugin"]

/-- Source `r_try_install_docker_linux` (run_docker.py lines 114–138):
return at once if `docker` resolves; exit 1 if `apt` is absent; otherwise
run `sudo apt update` and `sudo apt install ...` through `r_run_command`
inside `try/except SystemExit`, so any failure becomes `sys.exit(1)`.  When
both commands succeed the function simply returns: it does not re-probe
`docker` before reporting success. -/
def r_try_install_docker_linux (which : String → Bool)
    (oracle : List String → ExecOutcome) : Except Nat Unit × List REvent :=
  if which "docker" then (.ok (), [.probe "docker"])
  else if !which "apt" then (.error 1, [.probe "docker", .probe "apt"])
  else
    match r_run_command oracle aptUpdateCmd with
    | .error _ =>
        (.error 1, [.probe "docker", .probe "apt", .cmd aptUpdateCmd])
    | .ok _ =>
      match r_run_command oracle aptInstallCmd with
      | .error _ =>
          (.error 1,
           [.probe "docker", .probe "apt", .cmd aptUpdateCmd,
            .cmd aptInstallCmd])
      | .ok _ =>
          (.ok (),
           [.probe "docker", .probe "apt", .cmd aptUpdateCmd,
            .cmd aptInstallCmd])

/-- The `brew install --cask docker` invocation of run_docker.py line 152. -/
def brewCaskCmd : List String := ["brew", "install", "--cask", "docker"]

/-- Source `r_try_install_docker_macos` (run_docker.py lines 141–156):
return at once if `docker` resolves; exit 1 if `brew` is absent; otherwise
run the cask install through `r_run_command` (a failure exits with the
child's status) and then exit 1, telling the user to launch Docker.app and
re-run. -/
def r_try_install_docker_macos (which : String → Bool)
    (oracle : List String → ExecOutcome) : Except Nat Unit × List REvent :=
  if which "docker" then (.ok (), [.probe "docker"])
  else if !which "brew" then (.error 1, [.probe "docker", .probe "brew"])
  else
    match r_run_command oracle brewCaskCmd with
    | .error c => (.error c, [.probe "docker", .probe "brew", .cmd brewCaskCmd])
    | .ok _ => (.error 1, [.probe "docker", .probe "brew", .cmd brewCaskCmd])

/-- Source `r_ensure_docker_available` (run_docker.py lines 159–174): return
at once if `docker` resolves; otherwise dispatch on `platform.system()`
(`Windows` / `Linux` / `Darwin`; any other system exits 1). -/
def r_ensure_docker_available (which : String → Bool) (plat : String)
    (oracle : List String → ExecOutcome) : Except Nat Unit × List REvent :=
  if which "docker" then (.ok (), [.probe "docker"])
  else
    let sub :=
      if plat = "Windows" then r_try_install_docker_windows which oracle
      else if plat = "Linux" then r_try_install_docker_linux which oracle
      else if plat = "Darwin" then r_try_install_docker_macos which oracle
      else (.error 1, [])
    (sub.1, REvent.probe "docker" :: sub.2)

/-- The base argument vector built by `r_run_docker_compose`
(run_docker.py lines 178–185):
`docker compose --file <compose> --env-file <env>`. -/
def dcBase (composeFile envFile : String) : List String :=
  ["docker", "compose", "--file", composeFile, "--env-file", envFile]

/-- Source `r_run_docker_compose` (run_docker.py lines 177–188): when
`pull` is set, run `<base> pull` first (any failure exits there through
`r_run_command`, so `up` is never reached), then run `<base> up`.  The
second component records the commands invoked, in order. -/
def r_run_docker_compose (oracle : List String → ExecOutcome)
    (composeFile envFile : String) (pull : Bool) :
    Except Nat Unit × List REvent :=
  let base := dcBase composeFile envFile
  if pull then
    match r_run_command oracle (base ++ ["pull"]) with
    | .error c => (.error c, [.cmd (base ++ ["pull"])])
    | .ok _ =>
        (r_run_command oracle (base ++ ["up"]),
         [.cmd (base ++ ["pull"]), .cmd (base ++ ["up"])])
  else
    (r_run_command oracle (base ++ ["up"]), [.cmd (base ++ ["up"])])

/-- Source `r_main` (run_docker.py lines 215–225), after argument parsing:
exit 1 at once when the compose file does not exist (no prompt, no probe, no
command); otherwise ensure the env file, ensure docker, and run
`docker compose` with `pull = not args.no_pull`.  Returns the final process
outcome, the resulting filesystem, and the external events in order. -/
def r_main (envFile composeFile : String) (noPull : Bool)
    (answer pat : String) (extras : List String)
    (which : String → Bool) (plat : String)
    (oracle : List String → ExecOutcome) (fs : FS) :
    Except Nat Unit × FS × List REvent :=
  if !fsExists fs composeFile then (.error 1, fs, [])
  else
    match r_ensure_env_file answer pat extras fs envFile with
    | .error c => (.error c, fs, [])
    | .ok fs1 =>
      match r_ensure_docker_available which plat oracle with
      | (.error c, ev) => (.error c, fs1, ev)
      | (.ok _, ev) =>
        let r := r_run_docker_compose oracle composeFile envFile (!noPull)
        (r.1, fs1, ev ++ r.2)

/-! ## install_just.py

`exec` models `_run_command` / `subprocess.run(check=False).returncode`.
The `just` availability probe may differ before and after the install
attempt (installation can change the search path contents), so the probe
oracle is passed twice: `whichBefore` for every probe up to and including
the install attempt, `whichAfter` for the re-probe on line 196. -/

/-- Source `_run_command` (install_just.py lines 37–40): run with
`check=False` and return the exit code. -/
def ij_run_command (exec : List String → Nat) (command : List String) : Nat :=
  exec command

/-- Source `_is_just_installed` (install_just.py lines 43–45). -/
def ij_is_just_installed (which : String → Bool) : Bool := which "just"

/-- Source `_platform_name` (install_just.py lines 48–57). -/
def ij_platform_name (system : String) : String :=
  let s := pyLower system
  if pyStartsWith s "linux" then "linux"
  else if s = "darwin" then "macos"
  else if s = "windows" then "windows"
  else "unknown"

/-- Source `_auto_install_linux` (install_just.py lines 90–103): prefer
`apt` (both `apt update` and `apt install -y just` must exit 0, with
short-circuiting), fall back to the `curl | bash` installer, else report
failure. -/
def ij_auto_install_linux (which : String → Bool)
    (exec : List String → Nat) : Bool :=
  if which "apt" then
    ij_run_command exec ["sudo", "apt", "update"] == 0 &&
    ij_run_command exec ["sudo", "apt", "install", "-y", "just"] == 0
  else if which "curl" then
    ij_run_command exec
      ["bash", "-c", "curl -s https://just.systems/install.sh | bash"] == 0
  else false

/-- Source `_auto_install_macos` (install_just.py lines 106–110). -/
def ij_auto_install_macos (which : String → Bool)
    (exec : List String → Nat) : Bool :=
  if which "brew" then ij_run_command exec ["brew", "install", "just"] == 0
  else false

/-- Source `_auto_install_windows` (install_just.py lines 113–121): try
`scoop`, then `choco`. -/
def ij_auto_install_windows (which : String → Bool)
    (exec : List String → Nat) : Bool :=
  if which "scoop" then ij_run_command exec ["scoop", "install", "just"] == 0
  else if which "choco" then
    ij_run_command exec ["choco", "install", "just", "-y"] == 0
  else false

/-- Source `_attempt_auto_install` (install_just.py lines 124–137). -/
def ij_attempt_auto_install (system : String) (which : String → Bool)
    (exec : List String → Nat) : Bool :=
  let s := ij_platform_name system
  if s = "linux" then ij_auto_install_linux which exec
  else if s = "macos" then ij_auto_install_macos which exec
  else if s = "windows" then ij_auto_install_windows which exec
  else false

/-- Source `install_just` (install_just.py lines 162–208), returning the
process exit code: exit 0 at once when `just` already resolves; exit 1 when
`--auto` was not passed; otherwise attempt the automatic install and exit 0
only when the attempt reported success AND the line-196 re-probe
(`_is_just_installed()`, evaluated only after a successful attempt, against
the post-install search path `whichAfter`) confirms `just` resolves; exit 1
otherwise. -/
def install_just (whichBefore whichAfter : String → Bool)
    (exec : List String → Nat) (system : String) (auto : Bool) : Nat :=
  if ij_is_just_installed whichBefore then 0
  else if !auto then 1
  else if ij_attempt_auto_install system whichBefore exec &&
          ij_is_just_installed whichAfter then 0
  else 1

/-! ## Claims -/

/-- C1.  The round-trip claim fails on the code: the writer joins the
`KEY=VALUE` entries with the empty string instead of newline-terminating
each line, so writing `[(A,1),(B,2)]` produces `"A=1B=2"`, whose
line-by-line parse is `[(A,"1B=2")]`, not the original pairs.  The last
conjunct shows the same on the interactive writer `r_prompt_new_env`, whose
env file for collected entries `A=1` and `B=2` holds `"A=1B=2"`. -/
theorem make_env_roundtrip_fails_at_A1_B2 :
    writeEnvContent [("A", "1"), ("B", "2")] = "A=1B=2" ∧
    parseEnvFile (writeEnvContent [("A", "1"), ("B", "2")]) = [("A", "1B=2")] ∧
    parseEnvFile (writeEnvContent [("A", "1"), ("B", "2")]) ≠
      [("A", "1"), ("B", "2")] ∧
    fsRead (r_prompt_new_env "y" "" ["A=1", "B=2", ""] [] ".env").2 ".env" =
      some "A=1B=2" := by
  refine ⟨rfl, rfl, ?_, rfl⟩
  decide

/-- C2.  Ensure-ignored is not idempotent on the code: starting from a
`.gitignore` holding the single line `foo`, the first call writes
`"foo.env"` (the appended entry is glued on without a newline because of the
empty-string join), so the second call does not find `.env` among the lines
of the rewritten file and appends again, producing `"foo.env.env"`.  The
same happens with make_env.py's `ensure_gitignore`. -/
theorem ensure_ignored_not_idempotent_at_foo :
    r_ensure_gitignore_entry [(".gitignore", "foo\n")] ".env" =
      [(".gitignore", "foo.env")] ∧
    r_ensure_gitignore_entry
        (r_ensure_gitignore_entry [(".gitignore", "foo\n")] ".env") ".env" =
      [(".gitignore", "foo.env.env")] ∧
    r_ensure_gitignore_entry
        (r_ensure_gitignore_entry [(".gitignore", "foo\n")] ".env") ".env" ≠
      r_ensure_gitignore_entry [(".gitignore", "foo\n")] ".env" ∧
    ensure_gitignore (ensure_gitignore [(".gitignore", "foo\n")] ".env")
        ".env" ≠
      ensure_gitignore [(".gitignore", "foo\n")] ".env" := by
  refine ⟨rfl, rfl, ?_, ?_⟩ <;> decide

/-- C3.  Launch sequencing of `r_run_docker_compose`: when pulling is not
suppressed and the pull succeeds, exactly the two commands
`<base> pull` then `<base> up` are invoked, in that order, with the compose
and env file paths carried verbatim in `<base>`; with `--no-pull` only
`<base> up` is invoked; and when the pull exits with a nonzero code `c`, the
program exits with status `c` and `up` is never invoked. -/
theorem r_run_docker_compose_launch_sequencing
    (oracle : List String → ExecOutcome) (cf ef : String) :
    (oracle (dcBase cf ef ++ ["pull"]) = .exit 0 →
      r_run_docker_compose oracle cf ef true =
        (r_run_command oracle (dcBase cf ef ++ ["up"]),
         [.cmd (dcBase cf ef ++ ["pull"]), .cmd (dcBase cf ef ++ ["up"])])) ∧
    (r_run_docker_compose oracle cf ef false =
      (r_run_command oracle (dcBase cf ef ++ ["up"]),
       [.cmd (dcBase cf ef ++ ["up"])])) ∧
    (∀ c, c ≠ 0 → oracle (dcBase cf ef ++ ["pull"]) = .exit c →
      r_run_docker_compose oracle cf ef true =
        (.error c, [.cmd (dcBase cf ef ++ ["pull"])])) := by
  refine ⟨?_, ?_, ?_⟩
  · intro h
    simp [r_run_docker_compose, r_run_command, h]
  · simp [r_run_docker_compose]
  · intro c hc h
    simp [r_run_docker_compose, r_run_command, h, hc]

/-- C3 witness: the sequencing theorem applied to an oracle whose every
command exits 0 (both commands run) and to one whose every command exits 2
(the pull fails, the program exits 2, `up` is not invoked). -/
theorem r_run_docker_compose_launch_sequencing_witness :
    (r_run_docker_compose (fun _ => ExecOutcome.exit 0) "compose.yml" ".env"
        true =
      (r_run_command (fun _ => ExecOutcome.exit 0)
          (dcBase "compose.yml" ".env" ++ ["up"]),
       [.cmd (dcBase "compose.yml" ".env" ++ ["pull"]),
        .cmd (dcBase "compose.yml" ".env" ++ ["up"])])) ∧
    (r_run_docker_compose (fun _ => ExecOutcome.exit 2) "compose.yml" ".env"
        true =
      (.error 2, [.cmd (dcBase "compose.yml" ".env" ++ ["pull"])])) :=
  ⟨(r_run_docker_compose_launch_sequencing (fun _ => ExecOutcome.exit 0)
      "compose.yml" ".env").1 rfl,
   (r_run_docker_compose_launch_sequencing (fun _ => ExecOutcome.exit 2)
      "compose.yml" ".env").2.2 2 (by decide) rfl⟩

/-- C4.  Interactive collector transcript: the input sequence `"y"`, blank
secret, `"FOO=bar"`, blank line yields exactly the entry list
`["FOO=bar"]` (splitting on the first `'='`: `[(FOO, bar)]`) and writes the
env file; answering `"n"` to the confirmation aborts with `sys.exit(1)`
before any entry is produced and leaves the filesystem unchanged; and a
nonblank line without `'='` is rejected and re-prompted: the collection
loop continues on the remaining input with nothing appended. -/
theorem r_prompt_new_env_transcript :
    (r_prompt_new_env "y" "" ["FOO=bar", ""] [] ".env" =
      (.wrote ["FOO=bar"], [(".env", "FOO=bar")])) ∧
    (["FOO=bar"].map splitFirstEq = [("FOO", "bar")]) ∧
    (∀ (pat : String) (extras : List String) (fs : FS) (p : String),
      r_prompt_new_env "n" pat extras fs p = (.aborted, fs)) ∧
    (∀ (raw : String) (rest : List String),
      pyStrip raw ≠ "" → pyContains (pyStrip raw) '=' = false →
      r_collect_extras (raw :: rest) = r_collect_extras rest) := by
  refine ⟨by decide, by decide, fun pat extras fs p => rfl, ?_⟩
  intro raw rest h1 h2
  simp [r_collect_extras, h1, h2]

/-- C4 witness: the transcript theorem applied to the `"n"` confirmation at
concrete inputs, and the rejection clause at the `'='`-free line `"NOEQ"`. -/
theorem r_prompt_new_env_transcript_witness :
    r_prompt_new_env "n" "x" ["A=1"] [] ".env" = (.aborted, []) ∧
    r_collect_extras ["NOEQ", ""] = r_collect_extras [""] :=
  ⟨r_prompt_new_env_transcript.2.2.1 "x" ["A=1"] [] ".env",
   r_prompt_new_env_transcript.2.2.2 "NOEQ" [""] (by decide) (by decide)⟩

/-- C5 counterexample.  The claim fails at the invocation
`--github-pat TOKEN` with zero positional pairs: `main` does not succeed and
the output file does not contain the single token line (no file is written
at all — parser construction raises before parsing, and in any case the
positional `pairs` argument is declared with `nargs="+"`, so zero pairs
could never parse). -/
theorem make_env_pat_only_counterexample :
    ¬ ((makeEnvMain ["--github-pat", "TOKEN"] []).1 = PyOutcome.ok ∧
       fsRead (makeEnvMain ["--github-pat", "TOKEN"] []).2 ".env" =
         some "GITHUB_PERSONAL_ACCESS_TOKEN=TOKEN\n") := by
  decide

/-- C5 amended.  Supplying `--github-pat TOKEN` with zero explicit
`KEY=VALUE` pairs does not succeed: the invocation dies with the
parser-construction `TypeError` (a non-zero process exit, not a normal
return), and no file is written — the filesystem is returned unchanged. -/
theorem make_env_pat_only_amended (fs : FS) :
    (makeEnvMain ["--github-pat", "TOKEN"] fs).1 = PyOutcome.typeError ∧
    (makeEnvMain ["--github-pat", "TOKEN"] fs).2 = fs ∧
    PyOutcome.typeError ≠ PyOutcome.ok :=
  ⟨rfl, rfl, by decide⟩

/-- C6 counterexample.  The docker Linux remediation reports success without
any re-probe: with `docker` absent, `apt` present and both apt invocations
exiting cleanly, `r_try_install_docker_linux` returns success even though
the availability probe for `docker` still answers false — so a re-probe
would not confirm the tool, contradicting the claim that success requires
the installer to exit cleanly AND a re-probe to confirm availability. -/
theorem docker_linux_remediation_no_reprobe :
    (r_try_install_docker_linux (fun t => t == "apt")
        (fun _ => ExecOutcome.exit 0)).1 = .ok () ∧
    (fun t : String => t == "apt") "docker" = false :=
  ⟨rfl, rfl⟩

/-- C6 amended.  The `just` installer does define remediation success as the
installer invocations exiting cleanly AND the subsequent re-probe
(`_is_just_installed` against the post-install search path) confirming the
tool: with `just` absent and `--auto` set, `install_just` exits 0 exactly
when the automatic attempt succeeded and the re-probe answers true.  The
docker Linux remediation, by contrast, reports success whenever both apt
invocations exit cleanly, without re-probing `docker`. -/
theorem remediation_success_semantics_amended :
    (∀ (wb wa : String → Bool) (exec : List String → Nat) (sys : String),
      wb "just" = false →
      (install_just wb wa exec sys true = 0 ↔
        (ij_attempt_auto_install sys wb exec = true ∧ wa "just" = true))) ∧
    (∀ (w : String → Bool) (o : List String → ExecOutcome),
      w "docker" = false → w "apt" = true →
      o aptUpdateCmd = .exit 0 → o aptInstallCmd = .exit 0 →
      (r_try_install_docker_linux w o).1 = .ok ()) := by
  constructor
  · intro wb wa exec sys h
    simp only [install_just, ij_is_just_installed, h]
    split <;> simp_all
  · intro w o h1 h2 h3 h4
    simp [r_try_install_docker_linux, r_run_command, h1, h2, h3, h4]

/-- C6 amended witness: the two clauses applied at concrete oracles — the
`just` installer on Linux with `apt` cleanly installing and the re-probe
confirming, and the docker Linux remediation with both apt commands exiting
cleanly. -/
theorem remediation_success_semantics_amended_witness :
    (install_just (fun t => t == "apt") (fun t => t == "just")
        (fun _ => 0) "Linux" true = 0 ↔
      (ij_attempt_auto_install "Linux" (fun t => t == "apt") (fun _ => 0) =
          true ∧
        (fun t : String => t == "just") "just" = true)) ∧
    (r_try_install_docker_linux (fun t => t == "apt")
        (fun _ => ExecOutcome.exit 0)).1 = .ok () :=
  ⟨remediation_success_semantics_amended.1 (fun t => t == "apt")
      (fun t => t == "just") (fun _ => 0) "Linux" rfl,
   remediation_success_semantics_amended.2
      (fun t => t == "apt") (fun _ => ExecOutcome.exit 0)
      rfl rfl rfl rfl⟩

/-- C7.  `parse_kv` rejects every pair list containing an `'='`-free string
with a `ValueError`, and no invocation of make_env.py's `main` writes any
file: every run dies with the parser-construction `TypeError` (before
`parse_kv` and before any write), leaving the filesystem unchanged — so no
output-file or ignore-list side effect occurs on malformed input, though the
`ValueError` itself never surfaces. -/
theorem parse_kv_rejects_malformed_and_no_write :
    (∀ (pairs : List String) (p : String), p ∈ pairs →
      pyContains p '=' = false → ∃ e, parse_kv pairs = .error e) ∧
    (∀ (argv : List String) (fs : FS),
      (makeEnvMain argv fs).1 = PyOutcome.typeError ∧
      (makeEnvMain argv fs).2 = fs) := by
  constructor
  · intro pairs
    induction pairs with
    | nil => intro p hp; exact absurd hp (List.not_mem_nil p)
    | cons q rest ih =>
      intro p hp hnc
      by_cases hq : pyContains q '=' = true
      · rcases List.mem_cons.mp hp with rfl | hmem
        · exact absurd hq (by simp [hnc])
        · obtain ⟨e, he⟩ := ih p hmem hnc
          exact ⟨e, by simp [parse_kv, hq, he]⟩
      · exact ⟨"Invalid pair: " ++ q, by simp [parse_kv, hq]⟩
  · exact fun argv fs => ⟨rfl, rfl⟩

/-- C7 witness: the rejection clause at the single malformed pair `"FOO"`
and the no-write clause at the same invocation. -/
theorem parse_kv_rejects_malformed_and_no_write_witness :
    (∃ e, parse_kv ["FOO"] = .error e) ∧
    ((makeEnvMain ["FOO"] []).1 = PyOutcome.typeError ∧
      (makeEnvMain ["FOO"] []).2 = []) :=
  ⟨parse_kv_rejects_malformed_and_no_write.1 ["FOO"] "FOO" (by decide)
      (by decide),
   parse_kv_rejects_malformed_and_no_write.2 ["FOO"] []⟩

/-- C8.  Fail-fast on a missing compose file: whenever the compose file path
does not exist, `r_main` exits with status 1, leaves the filesystem
unchanged (no env file, config file or ignore-list effect), and produces no
external events — no availability probe, no remediation, no external
command. -/
theorem r_main_missing_compose_noop
    (envFile composeFile : String) (noPull : Bool) (answer pat : String)
    (extras : List String) (which : String → Bool) (plat : String)
    (oracle : List String → ExecOutcome) (fs : FS)
    (h : fsExists fs composeFile = false) :
    r_main envFile composeFile noPull answer pat extras which plat oracle
      fs = (.error 1, fs, []) := by
  simp [r_main, h]

/-- C8 witness: the fail-fast theorem at an empty filesystem (the default
compose path `compose.yml` does not exist). -/
theorem r_main_missing_compose_noop_witness :
    r_main ".env" "compose.yml" false "y" "" [] (fun _ => false) "Linux"
      (fun _ => ExecOutcome.exit 0) [] = (.error 1, [], []) :=
  r_main_missing_compose_noop ".env" "compose.yml" false "y" "" []
    (fun _ => false) "Linux" (fun _ => ExecOutcome.exit 0) [] (by decide)

/-- C9.  Missing ignore list is a success no-op: when `.gitignore` does not
exist, both `r_ensure_gitignore_entry` and make_env.py's `ensure_gitignore`
return normally with the filesystem unchanged — no file is created. -/
theorem ensure_ignored_missing_list_noop (fs : FS) (path : String)
    (h : fsRead fs ".gitignore" = none) :
    r_ensure_gitignore_entry fs path = fs ∧ ensure_gitignore fs path = fs := by
  constructor <;> simp [r_ensure_gitignore_entry, ensure_gitignore, h]

/-- C9 witness: the no-op theorem at the empty filesystem and entry path
`.env`. -/
theorem ensure_ignored_missing_list_noop_witness :
    r_ensure_gitignore_entry [] ".env" = [] ∧ ensure_gitignore [] ".env" = [] :=
  ensure_ignored_missing_list_noop [] ".env" rfl

/-- C10.  The positional `pairs` argument is declared with `nargs="+"` on
make_env.py line 23, but a zero-pair invocation is not rejected during
argument parsing: parser construction itself raises a `TypeError` on line 21
before `parse_args` ever runs, so the process dies with a traceback (not an
`argparse` usage exit), still before `parse_kv` and before any file is
written. -/
theorem make_env_parser_setup_crash :
    (makeEnvMain ["--github-pat", "TOKEN", "--out", ".env"] []).1 =
      PyOutcome.typeError ∧
    PyOutcome.typeError ≠ PyOutcome.usageExit ∧
    (makeEnvMain ["--github-pat", "TOKEN", "--out", ".env"] []).2 = [] :=
  ⟨rfl, by decide, rfl⟩
